import Mathlib

/-
  Verification of the Thermo-Track sensor-to-actuator control loop.

  Shallow embedding of the Python sources:
    - src/core/hardware_controller.py  (HardwareController)
    - src/core/pi_command_listener.py  (handle_command, auto_fan_controller)
    - src/core/sensor_logic.py         (SmartHomeMonitor.run, _control_actuators)
    - src/core/motion/motion_service.py (MotionService.run)
    - src/core/pubnub_client.py        (publish_data)
    - src/core/dht22/dht22_logger.py   (main loop body)

  Temperatures, durations and timestamps are modelled over ℚ (the thresholds
  22.0 / 24.0 / 26.0 and the integer test temperatures are exact in ℚ, so the
  float comparisons of the source are represented exactly).  GPIO writes are
  modelled as explicit pin levels plus, where a claim counts writes, as an
  emitted trace of the values passed to GPIO.output.
-/

namespace ThermoTrack

/-- GPIO digital level (RPi.GPIO LOW / HIGH). -/
inductive Level
  | LOW
  | HIGH
deriving DecidableEq

/-- The output-pin levels owned by HardwareController (BCM fan 14, buzzer 27,
led 22), plus whether GPIO.cleanup() has been called. -/
structure GpioState where
  fanPin : Level
  buzzerPin : Level
  ledPin : Level
  cleanedUp : Bool
deriving DecidableEq

/-- State of a HardwareController instance: the instance fields set in
`__init__` plus the GPIO output state.  `buzzer_timer = some t` models a live
threading.Timer scheduled to fire `_buzzer_off` at time `t`; `none` models no
timer or a dead/cancelled one (`_buzzer_timer is None or not is_alive()`). -/
structure HWState where
  current_preset : String
  fan_auto_mode : Bool
  temp_threshold : ℚ
  fan_state : Bool
  buzzer_state : Bool
  buzzer_timer : Option ℚ
  gpio : GpioState
deriving DecidableEq

/-- Pin state after `_setup_gpio`: all three outputs initialised LOW. -/
def initGpio : GpioState :=
  { fanPin := .LOW, buzzerPin := .LOW, ledPin := .LOW, cleanedUp := false }

/-- `HardwareController.__init__`: preset 'comfort', auto mode on,
threshold 22.0, fan and buzzer off, no buzzer timer. -/
def initHW : HWState :=
  { current_preset := "comfort"
    fan_auto_mode := true
    temp_threshold := 22
    fan_state := false
    buzzer_state := false
    buzzer_timer := none
    gpio := initGpio }

/-- `HardwareController.control_fan_based_on_temp(current_temp)`.
Returns the new state together with the list of values written to the fan
GPIO pin by this call (at most one write).  Mirrors the source: return
unchanged when auto mode is off or the temperature is None; otherwise compute
`should_turn_on = current_temp > temp_threshold` and write the pin only when
`should_turn_on != fan_state`. -/
def control_fan_based_on_temp (s : HWState) (current_temp : Option ℚ) :
    HWState × List Bool :=
  if s.fan_auto_mode = false then (s, [])
  else
    match current_temp with
    | none => (s, [])
    | some t =>
      let should_turn_on : Bool := decide (t > s.temp_threshold)
      if should_turn_on = s.fan_state then (s, [])
      else
        ({ s with
            fan_state := should_turn_on
            gpio := { s.gpio with
                        fanPin := if should_turn_on then .HIGH else .LOW } },
          [should_turn_on])

/-- Feed a sequence of temperature readings through
`control_fan_based_on_temp`, one call per reading, collecting per-cycle fan
GPIO write lists. -/
def runAutoFanTrace (s : HWState) : List (Option ℚ) → List (List Bool)
  | [] => []
  | t :: ts =>
    let r := control_fan_based_on_temp s t
    r.2 :: runAutoFanTrace r.1 ts

/-! Model of src/core/pi_command_listener.py: module-level state
(AUTO_MODE, LAST_MANUAL) plus the fan/buzzer GPIO output pins (BCM 17 / 27),
the PubNub command handler, and one iteration of the auto fan loop body. -/

/-- Module-level state of pi_command_listener.py: AUTO_MODE, LAST_MANUAL and
the two GPIO output pins it drives. -/
structure ListenerState where
  auto_mode : Bool
  last_manual : ℚ
  fan_pin : Level
  buzzer_pin : Level
deriving DecidableEq

/-- AUTO_THRESHOLD = 24 (fan turns on at 24°C or higher). -/
def AUTO_THRESHOLD : ℚ := 24

/-- MANUAL_TIMEOUT = 20 seconds of manual control before auto mode resumes. -/
def MANUAL_TIMEOUT : ℚ := 20

/-- Module init: AUTO_MODE = True, LAST_MANUAL = 0, pins as set up. -/
def listenerInit : ListenerState :=
  { auto_mode := true, last_manual := 0, fan_pin := .LOW, buzzer_pin := .LOW }

/-- Accepted spellings of each command in `handle_command`. -/
def FAN_ON_CMDS : List String := ["fan_on", "Fan On", "FAN_ON"]

def FAN_OFF_CMDS : List String := ["fan_off", "Fan Off", "FAN_OFF"]

def BUZZER_ON_CMDS : List String := ["buzzer_on", "Buzzer On", "BUZZER_ON"]

def BUZZER_OFF_CMDS : List String := ["buzzer_off", "Buzzer Off", "BUZZER_OFF"]

/-- The command vocabulary recognised by `handle_command`. -/
def COMMAND_VOCAB : List String :=
  FAN_ON_CMDS ++ FAN_OFF_CMDS ++ BUZZER_ON_CMDS ++ BUZZER_OFF_CMDS

/-- `handle_command(msg)` at time `now` with `cmd = msg.get("cmd")`
(`none` when the key is absent).  Mirrors the source: it first runs
`LAST_MANUAL = time.time(); AUTO_MODE = False` unconditionally — before any
validation of `cmd` — then drives the fan/buzzer pin for recognised commands
and falls through (only the initial print) for anything else. -/
def handle_command (now : ℚ) (cmd : Option String) (s : ListenerState) :
    ListenerState :=
  let s1 : ListenerState := { s with last_manual := now, auto_mode := false }
  match cmd with
  | none => s1
  | some c =>
    if c ∈ FAN_ON_CMDS then { s1 with fan_pin := .HIGH }
    else if c ∈ FAN_OFF_CMDS then { s1 with fan_pin := .LOW }
    else if c ∈ BUZZER_ON_CMDS then { s1 with buzzer_pin := .HIGH }
    else if c ∈ BUZZER_OFF_CMDS then { s1 with buzzer_pin := .LOW }
    else s1

/-- One iteration of the `auto_fan_controller` while-loop body at time `now`
with temperature reading `temp` (`none` models `read_temperature()` failing):
resume auto mode if the manual timeout passed, then, in auto mode, write the
fan pin HIGH when `temp >= AUTO_THRESHOLD` and LOW otherwise. -/
def auto_fan_cycle (now : ℚ) (temp : Option ℚ) (s : ListenerState) :
    ListenerState :=
  let s1 := if now - s.last_manual > MANUAL_TIMEOUT
            then { s with auto_mode := true } else s
  if s1.auto_mode then
    match temp with
    | none => s1
    | some t =>
      if t ≥ AUTO_THRESHOLD then { s1 with fan_pin := .HIGH }
      else { s1 with fan_pin := .LOW }
  else s1

/-- The fan GPIO writes issued by one `auto_fan_controller` iteration
(pi_command_listener.py lines 75-96): whenever the cycle runs in auto mode
with a present reading, `GPIO.output(FAN_PIN, ...)` is executed
unconditionally — HIGH when `temp >= AUTO_THRESHOLD` and LOW otherwise —
regardless of the pin's current level (this module keeps no recorded fan
state at all). -/
def auto_fan_cycle_writes (now : ℚ) (temp : Option ℚ) (s : ListenerState) :
    List Level :=
  let s1 := if now - s.last_manual > MANUAL_TIMEOUT
            then { s with auto_mode := true } else s
  if s1.auto_mode then
    match temp with
    | none => []
    | some t => if t ≥ AUTO_THRESHOLD then [.HIGH] else [.LOW]
  else []

/-- A listener state in auto mode whose fan pin is already HIGH. -/
def listenerFanHigh : ListenerState :=
  { auto_mode := true, last_manual := 0, fan_pin := .HIGH, buzzer_pin := .LOW }

/-! Model of the motion/DHT monitoring loop of src/core/sensor_logic.py
(SmartHomeMonitor.run and _control_actuators), the motion branch of
src/core/motion/motion_service.py, the publish path of
src/core/pubnub_client.py, and the loop body of
src/core/dht22/dht22_logger.py. -/

/-- MOTION_COOLDOWN = 2.0 (sensor_logic.py). -/
def MOTION_COOLDOWN : ℚ := 2

/-- READ_INTERVAL_SECONDS = 1.0 (sensor_logic.py main loop delay). -/
def READ_INTERVAL_SECONDS : ℚ := 1

/-- TEMP_THRESHOLD_C = 26.0 (sensor_logic.py fan threshold). -/
def TEMP_THRESHOLD_C : ℚ := 26

/-- The motion-edge state kept by `SmartHomeMonitor.run` in its local
variables `last_motion_state` and `last_motion_time` (`ts = int(time.time())`
is an integer). -/
structure MotionSt where
  last_motion_state : Level
  last_motion_time : ℤ
deriving DecidableEq

/-- A published motion payload `{"event": "motion", "occupied": o, "at": ts}`. -/
structure MotionEvent where
  occupied : ℕ
  atEpoch : ℤ
deriving DecidableEq

/-- Section B of one `SmartHomeMonitor.run` iteration: the PIR edge logic.
Given the prior state, the sampled PIR level and the cycle timestamp `ts`,
returns (new state, motion events published this cycle, `motion_detected`).
Mirrors the source: rising edge → stamp time, publish occupied=1,
motion_detected = True; falling edge → publish occupied=0 and go inactive only
when `ts - last_motion_time > MOTION_COOLDOWN`; continued HIGH →
motion_detected = True with no event; otherwise nothing. -/
def pirStep (s : MotionSt) (level : Level) (ts : ℤ) :
    MotionSt × List MotionEvent × Bool :=
  if level = .HIGH ∧ s.last_motion_state = .LOW then
    ({ last_motion_state := .HIGH, last_motion_time := ts },
      [{ occupied := 1, atEpoch := ts }], true)
  else if level = .LOW ∧ s.last_motion_state = .HIGH then
    if ((ts - s.last_motion_time : ℤ) : ℚ) > MOTION_COOLDOWN then
      ({ s with last_motion_state := .LOW }, [{ occupied := 0, atEpoch := ts }], false)
    else (s, [], false)
  else if level = .HIGH then (s, [], true)
  else (s, [], false)

/-- The motion branch of `MotionService.run` (motion_service.py): when the PIR
input is high it beeps and publishes `{"event": "motion", "occupied": 1}`;
otherwise it publishes nothing.  Returns the payloads published in one poll. -/
def motionServiceStep (level : Level) (ts : ℤ) : List MotionEvent :=
  if level = .HIGH then [{ occupied := 1, atEpoch := ts }] else []

/-- Outcome of one PubNub publish attempt, as seen by `publish_data`
(pubnub_client.py): either the SDK's `sync()` returns an envelope whose status
may carry an error, or the SDK raises an exception. -/
inductive PublishOutcome
  | envelope (isError : Bool)
  | sdkException (msg : String)
deriving DecidableEq

/-- `publish_data(data)` (pubnub_client.py).  The function inspects
`envelope.status.is_error()` and prints either the failure or the success
line, returning normally in both cases; it contains no try/except, so an
exception raised by the SDK's publish call escapes to the caller. -/
def publish_data : PublishOutcome → Except String Unit
  | .envelope _ => .ok ()
  | .sdkException m => .error m

/-- Whether one control-loop iteration keeps running or is torn down by
`run`'s outer `except Exception` handler (which logs the fatal error and
falls into `finally: cleanup()`, ending the loop). -/
inductive LoopResult
  | continuing (s : MotionSt)
  | terminated (err : String)
deriving DecidableEq

/-- The motion section of a `SmartHomeMonitor.run` iteration together with its
publish calls.  The `publish_data` calls at the motion edges (sensor_logic.py
lines 188 and 195) are not wrapped in any try/except inside the loop body, so
a publish exception propagates to `run`'s outer handler and the loop
terminates; an error envelope is absorbed inside `publish_data`. -/
def monitorMotionStep (s : MotionSt) (level : Level) (ts : ℤ)
    (o : PublishOutcome) : LoopResult :=
  let r := pirStep s level ts
  match r.2.1 with
  | [] => .continuing r.1
  | _ :: _ =>
    match publish_data o with
    | .ok _ => .continuing r.1
    | .error e => .terminated e

/-- The publish site of `MotionService.run` (motion_service.py lines 58-61):
`publish_data` is wrapped in try/except, the error is printed and the loop
continues, so the call as a whole always returns normally. -/
def motionServicePublish (o : PublishOutcome) : Except String Unit :=
  match publish_data o with
  | .ok _ => .ok ()
  | .error _ => .ok ()

/-- `SmartHomeMonitor._control_actuators(temp_c, motion_detected)`: buzzer and
LED are written HIGH when motion is detected and LOW otherwise; the fan pin is
written (HIGH iff `temp_c > TEMP_THRESHOLD_C`) only when `temp_c` is not None.
Returns (buzzer write, led write, fan write if any). -/
def control_actuators (temp_c : Option ℚ) (motion_detected : Bool) :
    Level × Level × Option Level :=
  let bz : Level := if motion_detected then .HIGH else .LOW
  let led : Level := if motion_detected then .HIGH else .LOW
  let fan : Option Level :=
    match temp_c with
    | some t => some (if t > TEMP_THRESHOLD_C then .HIGH else .LOW)
    | none => none
  (bz, led, fan)

/-- Observable actions of one full `SmartHomeMonitor.run` iteration. -/
structure CycleTrace where
  dhtPublished : Bool
  motionEvents : List MotionEvent
  buzzerWrite : Level
  ledWrite : Level
  fanWrite : Option Level
  sleepSecs : ℚ
deriving DecidableEq

/-- One full iteration of `SmartHomeMonitor.run` given the DHT poll result
`(t?, h?)`, the PIR level and the timestamp.  Mirrors the source order:
section A publishes the reading only when both fields are present (a None
reading is only logged — execution falls through to the PIR section); section
B is `pirStep`; section C is `_control_actuators`; section D sleeps
READ_INTERVAL_SECONDS.  There is no backoff branch and no `continue`. -/
def monitorCycle (s : MotionSt) (t? h? : Option ℚ) (level : Level) (ts : ℤ) :
    MotionSt × CycleTrace :=
  let dhtPublished := t?.isSome && h?.isSome
  let r := pirStep s level ts
  let acts := control_actuators t? r.2.2
  (r.1,
    { dhtPublished := dhtPublished
      motionEvents := r.2.1
      buzzerWrite := acts.1
      ledWrite := acts.2.1
      fanWrite := acts.2.2
      sleepSecs := READ_INTERVAL_SECONDS })

/-- DHT_INTERVAL default 15.0 (dht22_logger.py). -/
def DHT_READ_INTERVAL : ℚ := 15

/-- What one iteration of `dht22_logger.main`'s while-loop does. -/
inductive DhtCycle
  | skipBackoff (sleepSecs : ℚ)
  | logAndPublish (sleepSecs : ℚ)
deriving DecidableEq

/-- One iteration of `dht22_logger.main` given the poll result: when either
field is None it logs a warning, sleeps 2.0 s and `continue`s, skipping the
CSV write and the publish; otherwise it logs, writes the CSV row, publishes
the snapshot and sleeps the read interval. -/
def dht22_cycle (t? h? : Option ℚ) : DhtCycle :=
  if t?.isNone || h?.isNone then .skipBackoff 2
  else .logAndPublish DHT_READ_INTERVAL

/-! Remaining HardwareController operations (hardware_controller.py):
buzzer_beep, cleanup, the setters, and apply_preset with its PRESETS table. -/

/-- `HardwareController.set_fan_state(state)`: record the state and write the
fan pin. -/
def set_fan_state (b : Bool) (s : HWState) : HWState :=
  { s with
      fan_state := b
      gpio := { s.gpio with fanPin := if b then .HIGH else .LOW } }

/-- `HardwareController.set_fan_auto_mode(auto_mode)`. -/
def set_fan_auto_mode (b : Bool) (s : HWState) : HWState :=
  { s with fan_auto_mode := b }

/-- `HardwareController.set_temperature_threshold(threshold)`. -/
def set_temperature_threshold (t : ℚ) (s : HWState) : HWState :=
  { s with temp_threshold := t }

/-- `HardwareController.buzzer_beep(duration)` called at time `now`: if a
buzzer timer is still alive the call returns immediately with no change;
otherwise it sets `buzzer_state`, writes the buzzer pin HIGH and schedules
`_buzzer_off` to fire after `duration`. -/
def buzzer_beep (now duration : ℚ) (s : HWState) : HWState :=
  match s.buzzer_timer with
  | some _ => s
  | none =>
    { s with
        buzzer_state := true
        buzzer_timer := some (now + duration)
        gpio := { s.gpio with buzzerPin := .HIGH } }

/-- `HardwareController.cleanup()`: cancel the buzzer timer when alive, write
all three output pins LOW, then `GPIO.cleanup()`.  Total — the body has no
raising operation in the embedded model (MockGPIO and the cancelled-timer
branch never raise). -/
def cleanup (s : HWState) : HWState :=
  let s1 := match s.buzzer_timer with
            | some _ => { s with buzzer_timer := none }
            | none => s
  { s1 with
      gpio := { s1.gpio with
                  buzzerPin := .LOW
                  fanPin := .LOW
                  ledPin := .LOW
                  cleanedUp := true } }

/-- The fields a preset may set (absent key = field not in the dict). -/
structure Preset where
  fan_auto : Option Bool
  temp_threshold : Option ℚ
  fan_state : Option Bool
deriving DecidableEq

/-- `HardwareController.PRESETS`. -/
def PRESETS : List (String × Preset) :=
  [("comfort", { fan_auto := some true, temp_threshold := some 22, fan_state := none }),
   ("energy_saver", { fan_auto := some true, temp_threshold := some 24, fan_state := none }),
   ("manual", { fan_auto := some false, temp_threshold := none, fan_state := none }),
   ("away", { fan_auto := some false, temp_threshold := none, fan_state := some false })]

/-- `HardwareController.apply_preset(preset_name)`: unknown names are logged
and the method returns False without touching anything; otherwise
`current_preset` is set and each key present in the preset dict is applied via
the corresponding setter, then True is returned. -/
def apply_preset (preset_name : String) (s : HWState) : Bool × HWState :=
  match PRESETS.lookup preset_name with
  | none => (false, s)
  | some p =>
    let s1 := { s with current_preset := preset_name }
    let s2 := match p.fan_auto with
              | some b => set_fan_auto_mode b s1
              | none => s1
    let s3 := match p.temp_threshold with
              | some t => set_temperature_threshold t s2
              | none => s2
    let s4 := match p.fan_state with
              | some b => set_fan_state b s3
              | none => s3
    (true, s4)

/-! Theorems for the claims. -/

/-- Counterexample to C1 as stated: the cited `auto_fan_controller`
(pi_command_listener.py) is level-triggered with `>=`, not edge-triggered
with strict `>`.  In auto mode with the fan pin already HIGH, a reading of
exactly 24 °C — where the claim's desired state `24 > 24` is false — still
writes HIGH to the fan pin, and a reading of 30 °C — where the desired state
equals the current pin level — issues a write all the same. -/
theorem C1_counterexample :
    auto_fan_cycle_writes 0 (some 24) listenerFanHigh = [Level.HIGH]
    ∧ decide ((24:ℚ) > AUTO_THRESHOLD) = false
    ∧ auto_fan_cycle_writes 0 (some 30) listenerFanHigh ≠ []
    ∧ listenerFanHigh.fan_pin = Level.HIGH := by
  refine ⟨?_, ?_, ?_, rfl⟩
  · norm_num [auto_fan_cycle_writes, listenerFanHigh, MANUAL_TIMEOUT, AUTO_THRESHOLD]
  · simp [AUTO_THRESHOLD]
  · norm_num [auto_fan_cycle_writes, listenerFanHigh, MANUAL_TIMEOUT, AUTO_THRESHOLD]

/-- C1 (amended): the HardwareController path is exactly as the claim says —
`control_fan_based_on_temp` computes the desired state with strict
`t > temp_threshold`, issues a fan GPIO write only when it differs from the
recorded `fan_state`, and on [18, 19, 25, 25, 25, 17] with threshold 22
produces exactly two writes, ON at index 2 and OFF at index 5 — but the
legacy `auto_fan_controller` of pi_command_listener.py is level-triggered
with `>=`: every auto-mode cycle with a present reading writes the fan pin
(HIGH iff `temp >= 24`), whatever its current level. -/
theorem C1_amended (s : HWState) (t : ℚ) (hauto : s.fan_auto_mode = true)
    (l : ListenerState) (now t2 : ℚ) (hl : l.auto_mode = true) :
    ((control_fan_based_on_temp s (some t)).2 =
        if decide (t > s.temp_threshold) = s.fan_state then []
        else [decide (t > s.temp_threshold)])
    ∧ (control_fan_based_on_temp s (some t)).1.fan_state
        = decide (t > s.temp_threshold)
    ∧ runAutoFanTrace initHW
        [some 18, some 19, some 25, some 25, some 25, some 17]
        = [[], [], [true], [], [], [false]]
    ∧ auto_fan_cycle_writes now (some t2) l
        = [if t2 ≥ AUTO_THRESHOLD then Level.HIGH else Level.LOW]
    ∧ (auto_fan_cycle now (some t2) l).fan_pin
        = (if t2 ≥ AUTO_THRESHOLD then Level.HIGH else Level.LOW) := by
  refine ⟨?_, ?_, by decide, ?_, ?_⟩
  · simp [control_fan_based_on_temp, hauto]
    split <;> simp_all
  · simp [control_fan_based_on_temp, hauto]
    split <;> simp_all
  · unfold auto_fan_cycle_writes
    by_cases hexp : now - l.last_manual > MANUAL_TIMEOUT <;>
      by_cases ht2 : t2 ≥ AUTO_THRESHOLD <;> simp [hexp, ht2, hl]
  · unfold auto_fan_cycle
    by_cases hexp : now - l.last_manual > MANUAL_TIMEOUT <;>
      by_cases ht2 : t2 ≥ AUTO_THRESHOLD <;> simp [hexp, ht2, hl]

/-- Witness for the amended C1: the fresh controller at 25 °C, and one
listener auto cycle at 24 °C. -/
theorem C1_witness :
    (initHW.fan_auto_mode = true ∧ listenerInit.auto_mode = true)
    ∧ (((control_fan_based_on_temp initHW (some 25)).2 =
          if decide ((25:ℚ) > initHW.temp_threshold) = initHW.fan_state then []
          else [decide ((25:ℚ) > initHW.temp_threshold)])
        ∧ (control_fan_based_on_temp initHW (some 25)).1.fan_state
            = decide ((25:ℚ) > initHW.temp_threshold)
        ∧ runAutoFanTrace initHW
            [some 18, some 19, some 25, some 25, some 25, some 17]
            = [[], [], [true], [], [], [false]]
        ∧ auto_fan_cycle_writes 0 (some 24) listenerInit
            = [if (24:ℚ) ≥ AUTO_THRESHOLD then Level.HIGH else Level.LOW]
        ∧ (auto_fan_cycle 0 (some 24) listenerInit).fan_pin
            = (if (24:ℚ) ≥ AUTO_THRESHOLD then Level.HIGH else Level.LOW)) :=
  ⟨⟨rfl, rfl⟩, C1_amended initHW 25 rfl listenerInit 0 24 rfl⟩

/-- C2: while the manual override is active — the auto-mode flag was cleared
by a command and no more than MANUAL_TIMEOUT seconds have passed since it —
an automatic cycle leaves the whole listener state (fan pin included)
unchanged, regardless of the reading; once more than MANUAL_TIMEOUT seconds
have passed, the very next automatic cycle resumes auto mode and sets the fan
pin from the threshold policy; and every handled command activates the
override (clears auto mode and stamps the manual time). -/
theorem C2_manual_override_precedence (s : ListenerState) (now : ℚ)
    (temp : Option ℚ) :
    (s.auto_mode = false → now - s.last_manual ≤ MANUAL_TIMEOUT →
        auto_fan_cycle now temp s = s)
    ∧ (∀ t : ℚ, MANUAL_TIMEOUT < now - s.last_manual →
        auto_fan_cycle now (some t) s =
          { s with
              auto_mode := true
              fan_pin := if t ≥ AUTO_THRESHOLD then .HIGH else .LOW })
    ∧ (∀ c : Option String, (handle_command now c s).auto_mode = false ∧
        (handle_command now c s).last_manual = now) := by
  refine ⟨?_, ?_, ?_⟩
  · intro h1 h2
    have hx : ¬ (now - s.last_manual > MANUAL_TIMEOUT) := not_lt.mpr h2
    simp [auto_fan_cycle, hx, h1]
  · intro t h
    by_cases ht : t ≥ AUTO_THRESHOLD <;> simp [auto_fan_cycle, h, ht]
  · intro c
    cases c with
    | none => exact ⟨rfl, rfl⟩
    | some c =>
      simp only [handle_command]
      split_ifs <;> exact ⟨rfl, rfl⟩

/-- A listener state 5 seconds after a manual command issued at time 0. -/
def overriddenListener : ListenerState :=
  { auto_mode := false, last_manual := 0, fan_pin := .LOW, buzzer_pin := .LOW }

/-- Witness for C2: 5 s after a command (timeout 20 s), a 30 °C reading —
far above the 24 °C threshold — changes nothing. -/
theorem C2_witness :
    overriddenListener.auto_mode = false
    ∧ (5:ℚ) - overriddenListener.last_manual ≤ MANUAL_TIMEOUT
    ∧ auto_fan_cycle 5 (some 30) overriddenListener = overriddenListener :=
  ⟨rfl, by norm_num [overriddenListener, MANUAL_TIMEOUT],
    (C2_manual_override_precedence overriddenListener 5 (some 30)).1 rfl
      (by norm_num [overriddenListener, MANUAL_TIMEOUT])⟩

/-- Counterexample to C3 as stated: the unknown command "bogus", received at
time 100 in the initial listener state, flips the auto-mode flag and moves
the manual-override timestamp — `handle_command` mutates both before it ever
looks at `cmd`. -/
theorem C3_counterexample :
    (handle_command 100 (some "bogus") listenerInit).auto_mode
        ≠ listenerInit.auto_mode
    ∧ (handle_command 100 (some "bogus") listenerInit).last_manual
        ≠ listenerInit.last_manual := by
  decide

/-- C3 (amended): a command outside the vocabulary leaves the actuator
outputs (fan and buzzer pins) unchanged, but it still clears the auto-mode
flag and records the manual-override timestamp, exactly as a recognised
command would. -/
theorem C3_amended (now : ℚ) (c : String) (s : ListenerState)
    (h : c ∉ COMMAND_VOCAB) :
    (handle_command now (some c) s).fan_pin = s.fan_pin
    ∧ (handle_command now (some c) s).buzzer_pin = s.buzzer_pin
    ∧ (handle_command now (some c) s).auto_mode = false
    ∧ (handle_command now (some c) s).last_manual = now := by
  have h1 : c ∉ FAN_ON_CMDS := fun hx => h (by simp [COMMAND_VOCAB, List.mem_append, hx])
  have h2 : c ∉ FAN_OFF_CMDS := fun hx => h (by simp [COMMAND_VOCAB, List.mem_append, hx])
  have h3 : c ∉ BUZZER_ON_CMDS := fun hx => h (by simp [COMMAND_VOCAB, List.mem_append, hx])
  have h4 : c ∉ BUZZER_OFF_CMDS := fun hx => h (by simp [COMMAND_VOCAB, List.mem_append, hx])
  simp [handle_command, h1, h2, h3, h4]

/-- Witness for the amended C3 at the unknown command "bogus". -/
theorem C3_witness :
    "bogus" ∉ COMMAND_VOCAB
    ∧ ((handle_command 100 (some "bogus") listenerInit).fan_pin
          = listenerInit.fan_pin
        ∧ (handle_command 100 (some "bogus") listenerInit).buzzer_pin
          = listenerInit.buzzer_pin
        ∧ (handle_command 100 (some "bogus") listenerInit).auto_mode = false
        ∧ (handle_command 100 (some "bogus") listenerInit).last_manual = 100) :=
  ⟨by decide, C3_amended 100 "bogus" listenerInit (by decide)⟩

/-- C4: motion debounce in `SmartHomeMonitor.run`.  A stop event (occupied=0)
is emitted only on a falling edge with at least MOTION_COOLDOWN seconds
elapsed since the last transition; a falling edge seen before the cooldown
has elapsed emits nothing and leaves the state active; and a HIGH level while
the recorded state is already active never re-emits a start event. -/
theorem C4_motion_debounce (s : MotionSt) (lv : Level) (ts : ℤ) :
    (∀ e ∈ (pirStep s lv ts).2.1, e.occupied = 0 →
        lv = .LOW ∧ s.last_motion_state = .HIGH ∧
          MOTION_COOLDOWN ≤ ((ts - s.last_motion_time : ℤ) : ℚ))
    ∧ (lv = .LOW → s.last_motion_state = .HIGH →
        ((ts - s.last_motion_time : ℤ) : ℚ) < MOTION_COOLDOWN →
        (pirStep s lv ts).2.1 = [] ∧ (pirStep s lv ts).1 = s)
    ∧ (lv = .HIGH → s.last_motion_state = .HIGH →
        (pirStep s lv ts).2.1 = [] ∧ (pirStep s lv ts).1 = s) := by
  unfold pirStep
  split_ifs with h1 h2 h3 h4 <;> simp_all
  exact le_of_lt h3

/-- Witness for C4: a falling edge one second after the transition (cooldown
2 s) emits nothing and keeps the state active. -/
theorem C4_witness :
    ((((1:ℤ) - ((0:ℤ)) : ℤ) : ℚ) < MOTION_COOLDOWN)
    ∧ ((pirStep ⟨.HIGH, 0⟩ .LOW 1).2.1 = []
        ∧ (pirStep ⟨.HIGH, 0⟩ .LOW 1).1 = ⟨.HIGH, 0⟩) :=
  ⟨by norm_num [MOTION_COOLDOWN],
    (C4_motion_debounce ⟨.HIGH, 0⟩ .LOW 1).2.1 rfl rfl
      (by norm_num [MOTION_COOLDOWN])⟩

/-- C5: a rising edge publishes exactly one motion event with occupied=1;
every event published by the PIR step carries occupied=1 on a rising edge or
occupied=0 on an accepted falling edge (so no motion-stop ever publishes
occupied=1); and every payload published by `MotionService.run` carries
occupied=1. -/
theorem C5_motion_event_occupancy (s : MotionSt) (lv : Level) (ts : ℤ) :
    (lv = .HIGH → s.last_motion_state = .LOW →
        (pirStep s lv ts).2.1 = [{ occupied := 1, atEpoch := ts }])
    ∧ (∀ e ∈ (pirStep s lv ts).2.1,
        (e.occupied = 1 ∧ lv = .HIGH ∧ s.last_motion_state = .LOW) ∨
        (e.occupied = 0 ∧ lv = .LOW ∧ s.last_motion_state = .HIGH))
    ∧ (∀ e ∈ motionServiceStep lv ts, e.occupied = 1) := by
  unfold pirStep motionServiceStep
  split_ifs with h1 h2 h3 h4 <;> simp_all

/-- Witness for C5: the rising edge at time 5 publishes occupied=1. -/
theorem C5_witness :
    (pirStep ⟨.LOW, 0⟩ .HIGH 5).2.1 = [{ occupied := 1, atEpoch := 5 }] :=
  (C5_motion_event_occupancy ⟨.LOW, 0⟩ .HIGH 5).1 rfl rfl

/-- Counterexample to C6 as stated: an exception raised by the SDK inside the
publish call escapes `publish_data` (which has no try/except) and, at the
unguarded motion-publish site of `SmartHomeMonitor.run`, terminates the
control loop. -/
theorem C6_counterexample :
    publish_data (.sdkException "PNException") = .error "PNException"
    ∧ monitorMotionStep ⟨.LOW, 0⟩ .HIGH 5 (.sdkException "PNException")
        = .terminated "PNException" := by
  constructor
  · rfl
  · decide

/-- C6 (amended): a publish failure surfaced by the SDK as an error envelope
(status.is_error) is absorbed and logged inside `publish_data` and the
monitor loop continues with the same state it would have on success — the
loop's behaviour does not depend on delivery; but an exception raised by the
SDK is not caught in `publish_data`, and only call sites that wrap it in
try/except (such as `MotionService.run`) are protected. -/
theorem C6_amended (b : Bool) (s : MotionSt) (lv : Level) (ts : ℤ)
    (o : PublishOutcome) :
    publish_data (.envelope b) = .ok ()
    ∧ monitorMotionStep s lv ts (.envelope b) = .continuing (pirStep s lv ts).1
    ∧ motionServicePublish o = .ok () := by
  refine ⟨rfl, ?_, ?_⟩
  · unfold monitorMotionStep
    cases h : (pirStep s lv ts).2.1 <;> simp [h, publish_data]
  · cases o <;> rfl

/-- Counterexample to C7 as stated: in `SmartHomeMonitor.run`, a cycle whose
DHT poll returns both fields absent still executes the motion step (here a
rising edge publishing an event) and the actuation step (buzzer and LED
written HIGH), and sleeps the normal interval rather than a 2-second
backoff. -/
theorem C7_counterexample :
    (monitorCycle ⟨.LOW, 0⟩ none none .HIGH 5).2.motionEvents ≠ []
    ∧ (monitorCycle ⟨.LOW, 0⟩ none none .HIGH 5).2.buzzerWrite = .HIGH
    ∧ (monitorCycle ⟨.LOW, 0⟩ none none .HIGH 5).2.ledWrite = .HIGH
    ∧ (monitorCycle ⟨.LOW, 0⟩ none none .HIGH 5).2.sleepSecs ≠ 2 := by
  refine ⟨by decide, by decide, by decide, ?_⟩
  norm_num [monitorCycle, READ_INTERVAL_SECONDS]

/-- C7 (amended): on a transient sensor fault — a poll with both fields
absent, though the guard `t_c is None or h is None` in fact fires on either
field being absent — `dht22_logger.main` logs, sleeps the 2-second backoff
and restarts the cycle, skipping the CSV/publish work, while
`SmartHomeMonitor.run` merely skips the reading publish (and, with the
temperature absent, the fan write) — its motion step and motion-driven
actuation still run and the normal 1-second interval applies; in both loops
the faulty cycle ends in a normal continue, never in termination. -/
theorem C7_amended (s : MotionSt) (lv : Level) (ts : ℤ) (t? h? : Option ℚ)
    (h : t? = none ∨ h? = none) :
    dht22_cycle t? h? = .skipBackoff 2
    ∧ (monitorCycle s t? h? lv ts).2.dhtPublished = false
    ∧ (monitorCycle s t? h? lv ts).2.sleepSecs = READ_INTERVAL_SECONDS
    ∧ (monitorCycle s t? h? lv ts).2.motionEvents = (pirStep s lv ts).2.1
    ∧ (monitorCycle s t? h? lv ts).2.buzzerWrite
        = (if (pirStep s lv ts).2.2 then Level.HIGH else Level.LOW)
    ∧ (t? = none → (monitorCycle s t? h? lv ts).2.fanWrite = none)
    ∧ (monitorCycle s t? h? lv ts).1 = (pirStep s lv ts).1 := by
  refine ⟨?_, ?_, rfl, rfl, ?_, ?_, rfl⟩
  · unfold dht22_cycle
    rcases h with h | h <;> simp [h]
  · unfold monitorCycle
    rcases h with h | h <;> simp [h]
  · simp [monitorCycle, control_actuators]
  · intro h0
    subst h0
    simp [monitorCycle, control_actuators]

/-- Witness for the amended C7 at a both-absent reading with a rising PIR
edge. -/
theorem C7_witness :
    ((none : Option ℚ) = none ∨ (none : Option ℚ) = none)
    ∧ (dht22_cycle none none = .skipBackoff 2
        ∧ (monitorCycle ⟨.LOW, 0⟩ none none .HIGH 5).2.dhtPublished = false
        ∧ (monitorCycle ⟨.LOW, 0⟩ none none .HIGH 5).2.sleepSecs
            = READ_INTERVAL_SECONDS
        ∧ (monitorCycle ⟨.LOW, 0⟩ none none .HIGH 5).2.motionEvents
            = (pirStep ⟨.LOW, 0⟩ .HIGH 5).2.1
        ∧ (monitorCycle ⟨.LOW, 0⟩ none none .HIGH 5).2.buzzerWrite
            = (if (pirStep ⟨.LOW, 0⟩ .HIGH 5).2.2 then Level.HIGH else Level.LOW)
        ∧ ((none : Option ℚ) = none →
            (monitorCycle ⟨.LOW, 0⟩ none none .HIGH 5).2.fanWrite = none)
        ∧ (monitorCycle ⟨.LOW, 0⟩ none none .HIGH 5).1
            = (pirStep ⟨.LOW, 0⟩ .HIGH 5).1) :=
  ⟨Or.inl rfl, C7_amended ⟨.LOW, 0⟩ .HIGH 5 none none (Or.inl rfl)⟩

/-- C8: `cleanup` is idempotent — a second call changes nothing (and, the
model being a total function, raises nothing) — and after cleanup the fan,
buzzer and LED outputs are all LOW and no buzzer-off timer is pending. -/
theorem C8_cleanup_idempotent (s : HWState) :
    cleanup (cleanup s) = cleanup s
    ∧ (cleanup s).gpio.fanPin = .LOW
    ∧ (cleanup s).gpio.buzzerPin = .LOW
    ∧ (cleanup s).gpio.ledPin = .LOW
    ∧ (cleanup s).buzzer_timer = none := by
  unfold cleanup
  cases h : s.buzzer_timer <;> simp [h]

/-- C9: `buzzer_beep` is guarded against re-entry — while a buzzer-off timer
is alive the call returns the state completely unchanged (buzzer_state, GPIO
output and the scheduled turn-off time included). -/
theorem C9_buzzer_beep_reentry (s : HWState) (now d t : ℚ)
    (h : s.buzzer_timer = some t) :
    buzzer_beep now d s = s := by
  simp [buzzer_beep, h]

/-- A controller mid-beep: buzzer on, turn-off timer scheduled for time 5. -/
def beepingHW : HWState :=
  { initHW with
      buzzer_state := true
      buzzer_timer := some 5
      gpio := { initGpio with buzzerPin := .HIGH } }

/-- Witness for C9: a second beep request (duration 0.8) during an active
beep changes nothing. -/
theorem C9_witness :
    beepingHW.buzzer_timer = some 5
    ∧ buzzer_beep 6 (4/5) beepingHW = beepingHW :=
  ⟨rfl, C9_buzzer_beep_reentry beepingHW 6 (4/5) 5 rfl⟩

/-- C10: `apply_preset` with an unknown name returns False and leaves the
whole state untouched; with a known preset it returns True, records the
preset name, applies exactly the fields the preset defines and leaves every
field the preset does not mention unchanged. -/
theorem C10_apply_preset (name : String) (s : HWState) :
    (PRESETS.lookup name = none → apply_preset name s = (false, s))
    ∧ (∀ p, PRESETS.lookup name = some p →
        (apply_preset name s).1 = true
        ∧ (apply_preset name s).2.current_preset = name
        ∧ (∀ b, p.fan_auto = some b →
            (apply_preset name s).2.fan_auto_mode = b)
        ∧ (p.fan_auto = none →
            (apply_preset name s).2.fan_auto_mode = s.fan_auto_mode)
        ∧ (∀ t, p.temp_threshold = some t →
            (apply_preset name s).2.temp_threshold = t)
        ∧ (p.temp_threshold = none →
            (apply_preset name s).2.temp_threshold = s.temp_threshold)
        ∧ (∀ b, p.fan_state = some b → (apply_preset name s).2.fan_state = b)
        ∧ (p.fan_state = none →
            (apply_preset name s).2.fan_state = s.fan_state)) := by
  constructor
  · intro h
    simp [apply_preset, h]
  · intro p hp
    unfold apply_preset
    rw [hp]
    rcases p with ⟨fa, tt, fs⟩
    cases fa <;> cases tt <;> cases fs <;>
      simp [set_fan_auto_mode, set_temperature_threshold, set_fan_state]

/-- Witness for C10: the 'away' preset sets auto mode and fan state to False
and leaves the threshold untouched. -/
theorem C10_witness :
    PRESETS.lookup "away"
      = some { fan_auto := some false, temp_threshold := none, fan_state := some false }
    ∧ (apply_preset "away" initHW).1 = true
    ∧ (apply_preset "away" initHW).2.current_preset = "away"
    ∧ (apply_preset "away" initHW).2.fan_auto_mode = false
    ∧ (apply_preset "away" initHW).2.temp_threshold = initHW.temp_threshold
    ∧ (apply_preset "away" initHW).2.fan_state = false := by
  have h := (C10_apply_preset "away" initHW).2
    { fan_auto := some false, temp_threshold := none, fan_state := some false }
    (by decide)
  exact ⟨by decide, h.1, h.2.1, h.2.2.1 false rfl, h.2.2.2.2.2.1 rfl,
    h.2.2.2.2.2.2.1 false rfl⟩

end ThermoTrack
